import Mathlib

/-!
Shallow embedding of the borrowing-power calculation engine of
grosstoad/property-affordability-exp.

JavaScript numbers are modelled as `ℚ`; money and rates in the engine are
decimal literals and the engine applies no rounding, so rational arithmetic
coincides with the intended real-number semantics.  Division by zero follows
the Lean convention `x / 0 = 0`; where the JavaScript source would instead
produce `NaN` (an IEEE `0/0`), a dedicated `Option`-valued definition makes
that explicit.  `Record` lookups are modelled as association-list lookups
returning `Option`.  Bounded `for`/`while` loops become structural recursion
on the (fixed) number of remaining rounds.
-/

/-! ### Income/Expense normalizer (src/utils/calculationUtils.ts) -/

/-- The four pay frequencies recognized by the `multipliers` records. -/
inductive Frequency
  | weekly
  | fortnightly
  | monthly
  | annual
  deriving DecidableEq, Repr

/-- `{ weekly: 52, fortnightly: 26, monthly: 12, annual: 1 }`. -/
def annualMultiplier : Frequency → ℚ
  | .weekly => 52
  | .fortnightly => 26
  | .monthly => 12
  | .annual => 1

/-- `{ weekly: 52/12, fortnightly: 26/12, monthly: 1, annual: 1/12 }`. -/
def monthlyMultiplier : Frequency → ℚ
  | .weekly => 52 / 12
  | .fortnightly => 26 / 12
  | .monthly => 1
  | .annual => 1 / 12

/-- The raw `Record<string, number>` lookup `multipliers[frequency]` of
`normalizeToAnnual`: an unrecognized frequency string yields `undefined`
(modelled `none`), which the source then multiplies into `NaN`. -/
def annualMultiplierOfString (frequency : String) : Option ℚ :=
  ([("weekly", (52 : ℚ)), ("fortnightly", 26), ("monthly", 12), ("annual", 1)]).lookup frequency

structure FinancialInput where
  amount : ℚ
  frequency : Frequency
  deriving DecidableEq, Repr

def normalizeToAnnual (input : FinancialInput) : ℚ :=
  input.amount * annualMultiplier input.frequency

def normalizeToMonthly (input : FinancialInput) : ℚ :=
  input.amount * monthlyMultiplier input.frequency

/-! ### Shading rules (src/utils/shadingRules.ts) -/

inductive IncomeRuleType
  | PRIMARY
  | SUPPLEMENTARY
  | OTHER
  | RENTAL
  deriving DecidableEq, Repr

/-- `INCOME_SHADING_RULES`: PRIMARY 100%, SUPPLEMENTARY/OTHER/RENTAL 90%. -/
def shadingPercentage : IncomeRuleType → ℚ
  | .PRIMARY => 100
  | .SUPPLEMENTARY => 90
  | .OTHER => 90
  | .RENTAL => 90

def applyIncomeShading (amount : ℚ) (incomeType : IncomeRuleType) : ℚ :=
  amount * (shadingPercentage incomeType / 100)

/-- `DEBT_SHADING_RULES.INTEREST_BUFFER.percentage` (`getInterestBuffer()`). -/
def INTEREST_BUFFER : ℚ := 2.0

/-- `getDebtShadingPercentage('CREDIT_CARD')` = 3.8 / 100. -/
def CREDIT_CARD_FACTOR : ℚ := 3.8 / 100

/-- `getExpenseAmount('LIVING_EXPENSE_BASE')`. -/
def LIVING_EXPENSE_BASE : ℚ := 20000

/-- `getExpenseAmount('DEPENDENT_COST')`. -/
def DEPENDENT_COST : ℚ := 6000

/-! ### Tax calculator (src/utils/calculationUtils.ts) -/

/-- Simplified Australian tax brackets. -/
def calculateTax (annualIncome : ℚ) : ℚ :=
  if annualIncome ≤ 18200 then 0
  else if annualIncome ≤ 45000 then (annualIncome - 18200) * 0.19
  else if annualIncome ≤ 120000 then 5092 + (annualIncome - 45000) * 0.325
  else if annualIncome ≤ 180000 then 29467 + (annualIncome - 120000) * 0.37
  else 51667 + (annualIncome - 180000) * 0.45

/-! ### Annuity formulas (src/utils/calculationUtils.ts) -/

/-- Present value of an annuity: `payment * (1 - (1+r)^-nper) / r`,
`r = rate/100/12`.  `nper` is `loanTerm * 12`, a whole number of months. -/
def calculatePV (payment rate : ℚ) (nper : ℕ) : ℚ :=
  let monthlyRate := rate / 100 / 12
  payment * (1 - ((1 + monthlyRate) ^ nper)⁻¹) / monthlyRate

/-- Payment amount: `principal * r / (1 - (1+r)^-nper)`. -/
def calculatePmt (principal rate : ℚ) (nper : ℕ) : ℚ :=
  let monthlyRate := rate / 100 / 12
  principal * monthlyRate / (1 - ((1 + monthlyRate) ^ nper)⁻¹)

/-- `calculatePV` with the IEEE behaviour of the source made explicit: at a
zero monthly rate the JavaScript expression is `payment * 0 / 0 = NaN`;
`none` models that `NaN`.  For any nonzero rate the source computes the
rational value of `calculatePV`. -/
def calculatePVOrNaN (payment rate : ℚ) (nper : ℕ) : Option ℚ :=
  if rate = 0 then none else some (calculatePV payment rate nper)

/-- Government and other charges: `2000 + propertyValue * 0.001`. -/
def calculateOtherCharges (propertyValue : ℚ) : ℚ :=
  2000 + propertyValue * 0.001

/-! ### Stamp duty calculator (src/utils/stampDutyUtils.ts) -/

structure StampDutyThreshold where
  threshold : ℚ
  rate : ℚ
  baseAmount : Option ℚ
  deriving DecidableEq, Repr

structure FirstHomeBuyerRates where
  exemptionThreshold : ℚ
  concessionThreshold : ℚ
  concessionRate : ℚ
  deriving DecidableEq, Repr

structure StampDutyRates where
  standard : List StampDutyThreshold
  firstHomeBuyer : FirstHomeBuyerRates
  deriving DecidableEq, Repr

def nswStampDutyRates : StampDutyRates :=
  { standard := [⟨0, 0.0125, none⟩, ⟨100000, 0.02, some 1250⟩, ⟨300000, 0.035, some 5250⟩,
      ⟨1000000, 0.045, some 30500⟩, ⟨3000000, 0.07, some 120500⟩],
    firstHomeBuyer := ⟨650000, 800000, 0.5⟩ }

def vicStampDutyRates : StampDutyRates :=
  { standard := [⟨0, 0.014, none⟩, ⟨130000, 0.024, some 1820⟩, ⟨440000, 0.05, some 9245⟩,
      ⟨960000, 0.055, some 35320⟩],
    firstHomeBuyer := ⟨600000, 750000, 0.25⟩ }

def qldStampDutyRates : StampDutyRates :=
  { standard := [⟨0, 0.01, none⟩, ⟨175000, 0.02, some 1750⟩, ⟨540000, 0.0375, some 9075⟩,
      ⟨1000000, 0.045, some 26775⟩],
    firstHomeBuyer := ⟨500000, 550000, 0.3⟩ }

def waStampDutyRates : StampDutyRates :=
  { standard := [⟨0, 0.019, none⟩, ⟨120000, 0.0285, some 2280⟩, ⟨360000, 0.0305, some 9105⟩,
      ⟨725000, 0.0515, some 20330⟩],
    firstHomeBuyer := ⟨430000, 530000, 0.4⟩ }

def saStampDutyRates : StampDutyRates :=
  { standard := [⟨0, 0.01, none⟩, ⟨50000, 0.02, some 500⟩, ⟨200000, 0.03, some 3500⟩,
      ⟨250000, 0.035, some 5000⟩, ⟨500000, 0.055, some 13750⟩],
    firstHomeBuyer := ⟨0, 0, 0⟩ }

def tasStampDutyRates : StampDutyRates :=
  { standard := [⟨0, 0.0175, none⟩, ⟨100000, 0.0225, some 1750⟩, ⟨200000, 0.035, some 4000⟩,
      ⟨500000, 0.045, some 14500⟩],
    firstHomeBuyer := ⟨0, 500000, 0.5⟩ }

def actStampDutyRates : StampDutyRates :=
  { standard := [⟨0, 0.016, none⟩, ⟨200000, 0.0242, some 3200⟩, ⟨300000, 0.0332, some 5620⟩,
      ⟨500000, 0.0412, some 12260⟩, ⟨750000, 0.0512, some 22560⟩, ⟨1000000, 0.0612, some 35310⟩,
      ⟨1455000, 0.0712, some 63020⟩],
    firstHomeBuyer := ⟨750000, 750000, 1.0⟩ }

def ntStampDutyRates : StampDutyRates :=
  { standard := [⟨0, 0.015, none⟩, ⟨525000, 0.0375, some 7875⟩,
      ⟨3000000, 0.0575, some 101175⟩],
    firstHomeBuyer := ⟨500000, 650000, 0.5⟩ }

/-- The `STAMP_DUTY_RATES` record, as an association list in source order. -/
def STAMP_DUTY_RATES : List (String × StampDutyRates) :=
  [("NSW", nswStampDutyRates), ("VIC", vicStampDutyRates), ("QLD", qldStampDutyRates),
   ("WA", waStampDutyRates), ("SA", saStampDutyRates), ("TAS", tasStampDutyRates),
   ("ACT", actStampDutyRates), ("NT", ntStampDutyRates)]

/-- The scan of `calculateProgressiveDuty`: starting from `thresholds[0]`,
advance to each later entry while `value >= threshold`, `break` at the first
failure. -/
def findApplicableThreshold (value : ℚ) (current : StampDutyThreshold) :
    List StampDutyThreshold → StampDutyThreshold
  | [] => current
  | t :: rest => if value ≥ t.threshold then findApplicableThreshold value t rest else current

/-- Progressive duty: `baseAmount + (value - threshold) * rate` at the
applicable bracket (`baseAmount` defaults to 0 when absent). -/
def calculateProgressiveDuty (value : ℚ) (thresholds : List StampDutyThreshold) : ℚ :=
  match thresholds with
  | [] => 0
  | t0 :: rest =>
    let applicableThreshold := findApplicableThreshold value t0 rest
    applicableThreshold.baseAmount.getD 0
      + (value - applicableThreshold.threshold) * applicableThreshold.rate

/-- `calculateStampDuty(value, state, isFirstHomeBuyer, isInvestor)`.  The
state lookup defaults to NSW; the first-home-buyer concession branch
requires `value <= concessionThreshold && concessionRate` (JavaScript
truthiness: a zero concession rate disables the branch); `isInvestor` does
not alter the result. -/
def calculateStampDuty (value : ℚ) (state : String)
    (isFirstHomeBuyer : Bool) (_isInvestor : Bool) : ℚ :=
  let stateRates := (STAMP_DUTY_RATES.lookup state).getD nswStampDutyRates
  if isFirstHomeBuyer then
    if value ≤ stateRates.firstHomeBuyer.exemptionThreshold then 0
    else if value ≤ stateRates.firstHomeBuyer.concessionThreshold ∧
        stateRates.firstHomeBuyer.concessionRate ≠ 0 then
      calculateProgressiveDuty value stateRates.standard
        * (1 - stateRates.firstHomeBuyer.concessionRate)
    else
      calculateProgressiveDuty value stateRates.standard
  else
    calculateProgressiveDuty value stateRates.standard

example : calculateProgressiveDuty 1000000 nswStampDutyRates.standard = 30500 := by
  simp [calculateProgressiveDuty, findApplicableThreshold, nswStampDutyRates]
  norm_num

example : calculateStampDuty 440000 "VIC" false false = 9245 := by
  simp [calculateStampDuty, calculateProgressiveDuty, findApplicableThreshold,
    STAMP_DUTY_RATES, vicStampDutyRates, List.lookup]
  norm_num

example : calculateStampDuty 439999 "VIC" false false = 9259.976 := by
  simp [calculateStampDuty, calculateProgressiveDuty, findApplicableThreshold,
    STAMP_DUTY_RATES, vicStampDutyRates, List.lookup]
  norm_num

/-! ### LVR buckets (src/types/rates.ts) -/

/-- LVR range buckets (`'0_60' | '60_70' | '70_80' | '80_85' | '85_90' | '90_95'`). -/
inductive LvrRange
  | r0_60
  | r60_70
  | r70_80
  | r80_85
  | r85_90
  | r90_95
  deriving DecidableEq, Repr

/-- `getLvrRangeFromValue`: bucket a numeric LVR, upper boundaries inclusive. -/
def getLvrRangeFromValue (lvr : ℚ) : LvrRange :=
  if lvr ≤ 60 then .r0_60
  else if lvr ≤ 70 then .r60_70
  else if lvr ≤ 80 then .r70_80
  else if lvr ≤ 85 then .r80_85
  else if lvr ≤ 90 then .r85_90
  else .r90_95

/-! ### Tiered fallback rates (src/utils/rateUtils.ts) -/

structure LvrTierRate where
  maxLvr : ℚ
  rate : ℚ
  deriving DecidableEq, Repr

/-- `LVR_SPECIFIC_RATES`. -/
def LVR_SPECIFIC_RATES : List LvrTierRate :=
  [⟨50, 5.50⟩, ⟨60, 5.60⟩, ⟨70, 5.70⟩, ⟨80, 5.80⟩, ⟨85, 6.50⟩, ⟨100, 6.80⟩]

/-- `determineInterestRate(lvr, baseRate, isFirstHomeBuyer, isInvestor)`:
first tier with `lvr <= maxLvr` (falling back to the last tier), +0.20 for
investors, −0.10 for first home buyers when `lvr > 80`.  The `baseRate`
argument is accepted but unused by the source. -/
def determineInterestRate (lvr _baseRate : ℚ)
    (isFirstHomeBuyer isInvestor : Bool) : ℚ :=
  let applicableTier := (LVR_SPECIFIC_RATES.find? (fun tier => lvr ≤ tier.maxLvr)).getD
    (LVR_SPECIFIC_RATES.getLastD ⟨100, 6.80⟩)
  let rate := applicableTier.rate
  let rate := if isInvestor then rate + 0.20 else rate
  let rate := if isFirstHomeBuyer = true ∧ lvr > 80 then rate - 0.10 else rate
  rate

example : determineInterestRate 80 5.5 false false = 5.80 := by
  simp [determineInterestRate, LVR_SPECIFIC_RATES, List.find?]
  norm_num

/-! ### Rate table and lookup (src/types/rates.ts, rate repository) -/

inductive LoanProductType
  | variableRate
  | fixed_1
  | fixed_2
  | fixed_3
  | fixed_4
  | fixed_5
  deriving DecidableEq, Repr

inductive RepaymentType
  | principal_and_interest
  | interest_only
  deriving DecidableEq, Repr

inductive BorrowerType
  | owner_occupier
  | investor
  deriving DecidableEq, Repr

structure RateConfiguration where
  id : String
  productName : String
  lender : String
  productType : LoanProductType
  repaymentType : RepaymentType
  borrowerType : BorrowerType
  lvrRange : LvrRange
  hasOffset : Bool
  hasRedraw : Bool
  rate : ℚ
  comparisonRate : ℚ
  maxLvr : ℚ
  minLoanAmount : ℚ
  maxLoanAmount : Option ℚ
  isFirstHomeBuyerEligible : Bool
  effectiveDate : String
  deriving DecidableEq, Repr

/-- The filter predicate of `findBestRate`, one clause per source condition
(`maxLoanAmount === null` admits any loan amount; the three flag checks are
hard requirements only when requested). -/
def matchesCriteria (lvrRange : LvrRange) (productType : LoanProductType)
    (repaymentType : RepaymentType) (borrowerType : BorrowerType) (loanAmount : ℚ)
    (isFirstHomeBuyer hasOffset hasRedraw : Bool) (rate : RateConfiguration) : Bool :=
  rate.lvrRange == lvrRange &&
  rate.productType == productType &&
  rate.repaymentType == repaymentType &&
  rate.borrowerType == borrowerType &&
  decide (loanAmount ≥ rate.minLoanAmount) &&
  (match rate.maxLoanAmount with
   | none => true
   | some m => decide (loanAmount ≤ m)) &&
  (if isFirstHomeBuyer then rate.isFirstHomeBuyerEligible else true) &&
  (if hasOffset then rate.hasOffset else true) &&
  (if hasRedraw then rate.hasRedraw else true)

/-- The ascending-by-`rate` ordering used by `sort((a, b) => a.rate - b.rate)`. -/
def rateLe (a b : RateConfiguration) : Prop := a.rate ≤ b.rate

instance : DecidableRel rateLe := fun a b => inferInstanceAs (Decidable (a.rate ≤ b.rate))

/-- The `eligibleRates` filter of `findBestRate`. -/
def eligibleRatesFor (rateDatabase : List RateConfiguration) (lvrPercentage : ℚ)
    (productType : LoanProductType) (repaymentType : RepaymentType)
    (borrowerType : BorrowerType) (loanAmount : ℚ)
    (isFirstHomeBuyer hasOffset hasRedraw : Bool) : List RateConfiguration :=
  rateDatabase.filter (matchesCriteria (getLvrRangeFromValue lvrPercentage) productType
    repaymentType borrowerType loanAmount isFirstHomeBuyer hasOffset hasRedraw)

/-- `findBestRate`: filter the table, sort ascending by `rate` (JavaScript
`Array.prototype.sort` is stable, modelled by the stable `insertionSort`),
and return the first element, or `null` when nothing matches.  The
module-level `rateDatabase` is passed explicitly. -/
def findBestRate (rateDatabase : List RateConfiguration) (lvrPercentage : ℚ)
    (productType : LoanProductType) (repaymentType : RepaymentType)
    (borrowerType : BorrowerType) (loanAmount : ℚ)
    (isFirstHomeBuyer hasOffset hasRedraw : Bool) : Option RateConfiguration :=
  let eligibleRates := eligibleRatesFor rateDatabase lvrPercentage productType
    repaymentType borrowerType loanAmount isFirstHomeBuyer hasOffset hasRedraw
  let sortedRates := eligibleRates.insertionSort rateLe
  sortedRates.head?

/-! ### Calculation input/result (src/utils/calculationUtils.ts) -/

structure BorrowerInfo where
  primary : FinancialInput
  supplementary : Option FinancialInput
  other : Option FinancialInput
  rental : Option FinancialInput
  deriving DecidableEq, Repr

/-- `CalculationInput`.  `interestRate` is optional per the data model
(`interestRate?: number`): the solver tests it with JavaScript truthiness
(`input.interestRate || ...`), so `none` models an absent field. -/
structure CalculationInput where
  borrowers : List BorrowerInfo
  dependents : ℕ
  expenses : FinancialInput
  existingDebt : Option FinancialInput
  creditCardLimit : Option ℚ
  interestRate : Option ℚ
  loanTerm : ℕ
  propertyValue : ℚ
  deposit : ℚ
  state : String
  isFirstHomeBuyer : Bool
  isInvestor : Bool
  baseRate : ℚ
  deriving DecidableEq, Repr

structure IterationRow where
  iteration : ℕ
  lvr : ℚ
  rate : ℚ
  maxLoan : ℚ
  deriving DecidableEq, Repr

structure DebtBreakdown where
  existingDebt : ℚ
  creditCard : ℚ
  proposedLoan : ℚ
  creditCardFactor : ℚ
  assessmentRate : ℚ
  bufferRate : ℚ
  deriving DecidableEq, Repr

structure CalculationResult where
  maxLoan : ℚ
  maxProperty : ℚ
  stampDuty : ℚ
  deposit : ℚ
  originalSavings : ℚ
  otherCharges : ℚ
  loanToValueRatio : ℚ
  monthlyRepayment : ℚ
  isServiceable : Bool
  surplus : ℚ
  totalIncome : ℚ
  annualNetIncome : ℚ
  totalExpenses : ℚ
  totalDebt : ℚ
  iterations : ℕ
  iterationResults : List IterationRow
  finalRate : ℚ
  debtBreakdown : Option DebtBreakdown
  deriving DecidableEq, Repr

/-- One borrower's shaded annual income (primary 100%, the optional streams
at 90%; missing streams contribute zero). -/
def borrowerShadedIncome (borrower : BorrowerInfo) : ℚ :=
  applyIncomeShading (normalizeToAnnual borrower.primary) .PRIMARY
  + (match borrower.supplementary with
     | some s => applyIncomeShading (normalizeToAnnual s) .SUPPLEMENTARY
     | none => 0)
  + (match borrower.other with
     | some o => applyIncomeShading (normalizeToAnnual o) .OTHER
     | none => 0)
  + (match borrower.rental with
     | some r => applyIncomeShading (normalizeToAnnual r) .RENTAL
     | none => 0)

/-- `calculateTotalIncome`: sum of shaded incomes over all borrowers. -/
def calculateTotalIncome (borrowers : List BorrowerInfo) : ℚ :=
  borrowers.foldl (fun sum borrower => sum + borrowerShadedIncome borrower) 0

/-- The `totalTax` reduction: tax is computed per borrower on the borrower's
shaded income, then summed. -/
def totalTaxOf (borrowers : List BorrowerInfo) : ℚ :=
  borrowers.foldl (fun sum borrower => sum + calculateTax (borrowerShadedIncome borrower)) 0

def annualNetIncomeOf (input : CalculationInput) : ℚ :=
  calculateTotalIncome input.borrowers - totalTaxOf input.borrowers

/-- Base living expenses plus per-dependent costs, monthly. -/
def totalMonthlyExpensesOf (input : CalculationInput) : ℚ :=
  normalizeToMonthly input.expenses + DEPENDENT_COST * (input.dependents : ℚ) / 12

def monthlyDebtOf (input : CalculationInput) : ℚ :=
  match input.existingDebt with
  | some d => normalizeToMonthly d
  | none => 0

/-- `(input.creditCardLimit || 0) * CREDIT_CARD_FACTOR`. -/
def monthlyCreditCardOf (input : CalculationInput) : ℚ :=
  input.creditCardLimit.getD 0 * CREDIT_CARD_FACTOR

def monthlyDisposableOf (input : CalculationInput) : ℚ :=
  annualNetIncomeOf input / 12 - totalMonthlyExpensesOf input
    - monthlyDebtOf input - monthlyCreditCardOf input

/-- `initialLVR = deposit > 0 ? (1 - deposit/propertyValue) * 100 : 80`. -/
def initialLVROf (input : CalculationInput) : ℚ :=
  if input.deposit > 0 then (1 - input.deposit / input.propertyValue) * 100 else 80

/-- `input.interestRate || determineInterestRate(initialLVR, ...)`: the
caller-supplied rate is used when truthy (present and nonzero), otherwise
the Rate Resolver seeds the rate at the initial LVR. -/
def lvrBasedRateOf (input : CalculationInput) : ℚ :=
  match input.interestRate with
  | some r =>
    if r ≠ 0 then r
    else determineInterestRate (initialLVROf input) input.baseRate
      input.isFirstHomeBuyer input.isInvestor
  | none => determineInterestRate (initialLVROf input) input.baseRate
      input.isFirstHomeBuyer input.isInvestor

/-- Assessment rate: LVR-based rate plus the 2.0% serviceability buffer. -/
def effectiveRateOf (input : CalculationInput) : ℚ :=
  lvrBasedRateOf input + INTEREST_BUFFER

def maxLoanOf (input : CalculationInput) : ℚ :=
  calculatePV (monthlyDisposableOf input) (effectiveRateOf input) (input.loanTerm * 12)

/-- The five-round `maxProperty` refinement loop: each round recomputes
stamp duty and other charges at the current `maxProperty` and sets
`maxProperty = maxLoan + (deposit - totalCosts)`. -/
def refineMaxProperty (input : CalculationInput) (maxLoan : ℚ) :
    ℕ → ℚ → ℚ
  | 0, maxProperty => maxProperty
  | n + 1, maxProperty =>
    let stampDuty := calculateStampDuty maxProperty input.state
      input.isFirstHomeBuyer input.isInvestor
    let otherCharges := calculateOtherCharges maxProperty
    let totalCosts := stampDuty + otherCharges
    let availableDeposit := input.deposit - totalCosts
    refineMaxProperty input maxLoan n (maxLoan + availableDeposit)

def maxPropertyOf (input : CalculationInput) : ℚ :=
  refineMaxProperty input (maxLoanOf input) 5 (maxLoanOf input + input.deposit)

def finalStampDutyOf (input : CalculationInput) : ℚ :=
  calculateStampDuty (maxPropertyOf input) input.state input.isFirstHomeBuyer input.isInvestor

def finalOtherChargesOf (input : CalculationInput) : ℚ :=
  calculateOtherCharges (maxPropertyOf input)

/-- `finalDeposit = deposit - (finalStampDuty + finalOtherCharges)`. -/
def finalDepositOf (input : CalculationInput) : ℚ :=
  input.deposit - (finalStampDutyOf input + finalOtherChargesOf input)

/-- `potentialLoan = propertyValue - finalDeposit`. -/
def potentialLoanOf (input : CalculationInput) : ℚ :=
  input.propertyValue - finalDepositOf input

def monthlyRepaymentOf (input : CalculationInput) : ℚ :=
  calculatePmt (potentialLoanOf input) (effectiveRateOf input) (input.loanTerm * 12)

/-- `surplus = monthlyDisposable - monthlyRepayment`. -/
def surplusOf (input : CalculationInput) : ℚ :=
  monthlyDisposableOf input - monthlyRepaymentOf input

/-- `loanToValueRatio = (potentialLoan / propertyValue) * 100`. -/
def loanToValueRatioOf (input : CalculationInput) : ℚ :=
  potentialLoanOf input / input.propertyValue * 100

/-- `calculateBorrowingPower` (single-pass solve).  Each field assembles the
corresponding local of the source; `isServiceable = surplus >= 0 &&
potentialLoan <= maxLoan`. -/
def calculateBorrowingPower (input : CalculationInput) : CalculationResult :=
  { maxLoan := maxLoanOf input
    maxProperty := maxPropertyOf input
    stampDuty := finalStampDutyOf input
    deposit := finalDepositOf input
    originalSavings := input.deposit
    otherCharges := finalOtherChargesOf input
    loanToValueRatio := loanToValueRatioOf input
    monthlyRepayment := monthlyRepaymentOf input
    isServiceable := decide (surplusOf input ≥ 0 ∧ potentialLoanOf input ≤ maxLoanOf input)
    surplus := surplusOf input
    totalIncome := calculateTotalIncome input.borrowers
    annualNetIncome := annualNetIncomeOf input
    totalExpenses := totalMonthlyExpensesOf input * 12
    totalDebt := (monthlyDebtOf input + monthlyCreditCardOf input) * 12
    iterations := 1
    iterationResults := [⟨1, loanToValueRatioOf input, lvrBasedRateOf input, maxLoanOf input⟩]
    finalRate := lvrBasedRateOf input
    debtBreakdown := some
      { existingDebt := match input.existingDebt with
          | some d => normalizeToAnnual d
          | none => 0
        creditCard := input.creditCardLimit.getD 0 * CREDIT_CARD_FACTOR * 12
        proposedLoan := 0
        creditCardFactor := CREDIT_CARD_FACTOR
        assessmentRate := effectiveRateOf input
        bufferRate := INTEREST_BUFFER } }

structure ServiceabilityResult where
  isServiceable : Bool
  surplus : ℚ
  monthlyRepayment : ℚ
  deriving DecidableEq, Repr

/-- `calculateLoanServiceability(input, loanAmount)`: resolve a rate at the
candidate loan's LVR, add the buffer, and compare the repayment against
monthly disposable income; `isServiceable = surplus >= 0`. -/
def calculateLoanServiceability (input : CalculationInput) (loanAmount : ℚ) :
    ServiceabilityResult :=
  let monthlyDisposable := monthlyDisposableOf input
  let loanToValueRatio := loanAmount / input.propertyValue * 100
  let lvrBasedRate := determineInterestRate loanToValueRatio input.baseRate
    input.isFirstHomeBuyer input.isInvestor
  let effectiveRate := lvrBasedRate + INTEREST_BUFFER
  let monthlyRepayment := calculatePmt loanAmount effectiveRate (input.loanTerm * 12)
  let surplus := monthlyDisposable - monthlyRepayment
  { isServiceable := decide (surplus ≥ 0), surplus := surplus,
    monthlyRepayment := monthlyRepayment }

/-! ### Iterative solver (src/utils/calculationUtils.ts) -/

def MAX_ITERATIONS : ℕ := 10

/-- The unreachable all-zero fallback result returned after the `while` loop
when no iteration ever ran. -/
def emptyCalculationResult (input : CalculationInput) : CalculationResult :=
  { maxLoan := 0, maxProperty := 0, stampDuty := 0, deposit := 0,
    originalSavings := input.deposit, otherCharges := 0, loanToValueRatio := 0,
    monthlyRepayment := 0, isServiceable := false, surplus := 0, totalIncome := 0,
    annualNetIncome := 0, totalExpenses := 0, totalDebt := 0,
    iterations := MAX_ITERATIONS, iterationResults := [], finalRate := 0,
    debtBreakdown := none }

/-- The `while (iterations < MAX_ITERATIONS)` loop of
`calculateBorrowingPowerIterative`.  The loop guard is carried as the count
`remaining` of rounds still allowed: under the invariant
`remaining + iterations = MAX_ITERATIONS` (set up by the entry call and
preserved by the recursion), `0 < remaining` is exactly
`iterations < MAX_ITERATIONS`.  Each round recomputes the single-pass solve
at `currentRate`, resolves `newRate` at the resulting LVR, and either
returns (on convergence `|maxLoan - previousMaxLoan| < 1000 &&
|newRate - currentRate| < 0.01`, or when the round counter reaches
`MAX_ITERATIONS`) with `finalRate := newRate`, or continues with the new
rate.  The two post-loop returns of the source are the `remaining = 0`
case. -/
def bpIterLoop (input : CalculationInput) :
    ℕ → ℕ → ℚ → ℚ → List IterationRow → Option CalculationResult → CalculationResult
  | 0, iterations, _previousMaxLoan, currentRate, rows, finalResult =>
    match finalResult with
    | some r =>
      { r with iterations := iterations, iterationResults := rows, finalRate := currentRate }
    | none => emptyCalculationResult input
  | remaining + 1, iterations, previousMaxLoan, currentRate, rows, _finalResult =>
    let iterations' := iterations + 1
    let result := calculateBorrowingPower { input with interestRate := some currentRate }
    let rows' := rows ++ [⟨iterations', result.loanToValueRatio, currentRate, result.maxLoan⟩]
    let newRate := determineInterestRate result.loanToValueRatio input.baseRate
      input.isFirstHomeBuyer input.isInvestor
    let loanChange := |result.maxLoan - previousMaxLoan|
    let rateChange := |newRate - currentRate|
    if (loanChange < 1000 ∧ rateChange < 0.01) ∨ iterations' = MAX_ITERATIONS then
      { result with iterations := iterations', iterationResults := rows', finalRate := newRate }
    else
      bpIterLoop input remaining iterations' result.maxLoan newRate rows' (some result)

/-- `calculateBorrowingPowerIterative`: seed the LVR from the deposit, seed
the rate from the Rate Resolver, and run the bounded fixed-point loop
(`iterations = 0`, so all `MAX_ITERATIONS` rounds remain). -/
def calculateBorrowingPowerIterative (input : CalculationInput) : CalculationResult :=
  let currentLVR := if input.deposit > 0 then
    (1 - input.deposit / input.propertyValue) * 100 else 80
  let currentRate := determineInterestRate currentLVR input.baseRate
    input.isFirstHomeBuyer input.isInvestor
  bpIterLoop input MAX_ITERATIONS 0 0 currentRate [] none

/-! ### Auxiliary predicates for the stamp-duty table -/

/-- Consecutive thresholds strictly increase. -/
def thresholdsIncreasingB : List StampDutyThreshold → Bool
  | [] => true
  | [_] => true
  | a :: b :: rest => decide (a.threshold < b.threshold) && thresholdsIncreasingB (b :: rest)

/-! ### Theorems -/

/-- C6: `calculateTax` is monotonically non-decreasing for incomes ≥ 0, and
at each bracket boundary (18200, 45000, 120000, 180000) the bracket below
and the bracket above compute the same value (continuity, no cliff). -/
theorem calculateTax_monotone_continuous :
    (∀ income1 income2 : ℚ, 0 ≤ income1 → income1 ≤ income2 →
      calculateTax income1 ≤ calculateTax income2)
    ∧ calculateTax 18200 = 0 ∧ (18200 - (18200 : ℚ)) * 0.19 = 0
    ∧ calculateTax 45000 = ((45000 : ℚ) - 18200) * 0.19
    ∧ calculateTax 45000 = 5092 + ((45000 : ℚ) - 45000) * 0.325
    ∧ calculateTax 120000 = 5092 + ((120000 : ℚ) - 45000) * 0.325
    ∧ calculateTax 120000 = 29467 + ((120000 : ℚ) - 120000) * 0.37
    ∧ calculateTax 180000 = 29467 + ((180000 : ℚ) - 120000) * 0.37
    ∧ calculateTax 180000 = 51667 + ((180000 : ℚ) - 180000) * 0.45 := by
  refine ⟨?_, ?_, ?_, ?_, ?_, ?_, ?_, ?_, ?_⟩
  · intro income1 income2 h0 h12
    unfold calculateTax
    split_ifs <;> linarith
  all_goals norm_num [calculateTax]

/-- Witness for C6: the monotonicity bound applied at 30000 ≤ 90000. -/
theorem calculateTax_monotone_continuous_witness :
    calculateTax 30000 ≤ calculateTax 90000 :=
  calculateTax_monotone_continuous.1 30000 90000 (by norm_num) (by norm_num)

/-- C7: an LVR of exactly 80 falls in the `'70_80'` bucket, and
`determineInterestRate` at LVR 80 uses the tier with upper bound 80
(rate 5.80), not the 80–85 tier — upper boundaries are inclusive. -/
theorem lvr80_boundary_inclusive :
    getLvrRangeFromValue 80 = LvrRange.r70_80
    ∧ LVR_SPECIFIC_RATES.find? (fun tier => (80 : ℚ) ≤ tier.maxLvr) = some ⟨80, 5.80⟩
    ∧ ∀ (baseRate : ℚ) (isFirstHomeBuyer isInvestor : Bool),
        determineInterestRate 80 baseRate isFirstHomeBuyer isInvestor =
          5.80 + (if isInvestor then 0.20 else 0) := by
  refine ⟨?_, ?_, ?_⟩
  · norm_num [getLvrRangeFromValue]
  · norm_num [LVR_SPECIFIC_RATES, List.find?]
  · intro baseRate isFirstHomeBuyer isInvestor
    cases isInvestor <;> cases isFirstHomeBuyer <;>
      simp [determineInterestRate, LVR_SPECIFIC_RATES, List.find?] <;> norm_num

/-- C3: the duty drop at the VIC 440,000 bracket boundary.  Standard (non
first-home-buyer) VIC duty at 439,999 is 9,259.976 but at 440,000 it is
9,245 — `calculateStampDuty` is not monotonically non-decreasing in value
for the configured VIC table (its `baseAmount` 9,245 undercuts the
cumulative duty from the bracket below). -/
theorem calculateStampDuty_vic_not_monotone :
    calculateStampDuty 439999 "VIC" false false = 9259.976
    ∧ calculateStampDuty 440000 "VIC" false false = 9245
    ∧ ¬ calculateStampDuty 439999 "VIC" false false ≤
        calculateStampDuty 440000 "VIC" false false := by
  refine ⟨?_, ?_, ?_⟩ <;>
    simp [calculateStampDuty, calculateProgressiveDuty, findApplicableThreshold,
      STAMP_DUTY_RATES, vicStampDutyRates, List.lookup] <;> norm_num

/-- C4: the configured thresholds are strictly increasing in every
jurisdiction, but the NSW `baseAmount` at the 1,000,000 bracket (30,500,
which is what `calculateProgressiveDuty` returns exactly at that threshold)
differs from the cumulative duty computed at that boundary with the prior
bracket's rate, 5250 + (1000000 − 300000) × 0.035 = 29,750 — the table is
not internally consistent. -/
theorem stampDuty_table_inconsistent_at_nsw :
    (STAMP_DUTY_RATES.all fun entry => thresholdsIncreasingB entry.2.standard) = true
    ∧ calculateProgressiveDuty 1000000 nswStampDutyRates.standard = 30500
    ∧ 5250 + ((1000000 : ℚ) - 300000) * 0.035 = 29750
    ∧ calculateProgressiveDuty 1000000 nswStampDutyRates.standard ≠
        5250 + ((1000000 : ℚ) - 300000) * 0.035 := by
  refine ⟨?_, ?_, by norm_num, ?_⟩
  · simp [STAMP_DUTY_RATES, thresholdsIncreasingB, nswStampDutyRates, vicStampDutyRates,
      qldStampDutyRates, waStampDutyRates, saStampDutyRates, tasStampDutyRates,
      actStampDutyRates, ntStampDutyRates] <;> norm_num
  · simp [calculateProgressiveDuty, findApplicableThreshold, nswStampDutyRates]
    norm_num
  · simp [calculateProgressiveDuty, findApplicableThreshold, nswStampDutyRates]
    norm_num

/-- C8: for every configured jurisdiction, a first home buyer pays exactly 0
at the exemption threshold `T` and a strictly positive duty at `T + 1`. -/
theorem fhb_exemption_boundary :
    ∀ entry ∈ STAMP_DUTY_RATES,
      calculateStampDuty entry.2.firstHomeBuyer.exemptionThreshold entry.1 true false = 0
      ∧ 0 < calculateStampDuty (entry.2.firstHomeBuyer.exemptionThreshold + 1)
          entry.1 true false := by
  intro entry hentry
  fin_cases hentry <;>
    (refine ⟨?_, ?_⟩ <;>
      simp [calculateStampDuty, calculateProgressiveDuty, findApplicableThreshold,
        STAMP_DUTY_RATES, nswStampDutyRates, vicStampDutyRates, qldStampDutyRates,
        waStampDutyRates, saStampDutyRates, tasStampDutyRates, actStampDutyRates,
        ntStampDutyRates, List.lookup] <;> norm_num)

/-- Witness for C8: the boundary pair at the NSW exemption threshold 650,000. -/
theorem fhb_exemption_boundary_witness :
    calculateStampDuty 650000 "NSW" true false = 0
    ∧ 0 < calculateStampDuty 650001 "NSW" true false := by
  have h := fhb_exemption_boundary ("NSW", nswStampDutyRates) (by simp [STAMP_DUTY_RATES])
  norm_num [nswStampDutyRates] at h
  exact h

/-! ### Concrete solver inputs used in the theorems below -/

/-- A single borrower on 90,000/yr, 1,000/mo expenses, no debts, buying a
500,000 property with a 10,000 deposit in NSW over 30 years. -/
def baselineInput : CalculationInput :=
  { borrowers := [⟨⟨90000, .annual⟩, none, none, none⟩],
    dependents := 0,
    expenses := ⟨1000, .monthly⟩,
    existingDebt := none,
    creditCardLimit := none,
    interestRate := none,
    loanTerm := 30,
    propertyValue := 500000,
    deposit := 10000,
    state := "NSW",
    isFirstHomeBuyer := false,
    isInvestor := false,
    baseRate := 5.5 }

/-- `baselineInput` with a caller-supplied `interestRate` of exactly 0. -/
def zeroSuppliedRateInput : CalculationInput :=
  { baselineInput with deposit := 100000, interestRate := some 0 }

/-- `baselineInput` with a caller-supplied rate of −2, making the assessment
rate (−2 + 2% buffer) exactly 0 — the degenerate annuity case. -/
def zeroEffectiveRateInput : CalculationInput :=
  { baselineInput with interestRate := some (-2) }

/-- `baselineInput` with a caller-supplied rate of −2402, making the monthly
assessment rate exactly −2 (so `1 - (1+r)^-n = 0` in the annuity formulas). -/
def degenerateRateInput : CalculationInput :=
  { baselineInput with interestRate := some (-2402) }

/-- C9 (counterexample): with `interestRate` present but equal to 0, the
solver does not use the caller-supplied rate — JavaScript `||` treats the
present 0 as absent and the result's rate comes from the Rate Resolver
(5.8 at the initial LVR of 80). -/
theorem calculateBorrowingPower_ignores_supplied_zero_rate :
    zeroSuppliedRateInput.interestRate = some 0
    ∧ (calculateBorrowingPower zeroSuppliedRateInput).finalRate = 5.8
    ∧ (calculateBorrowingPower zeroSuppliedRateInput).finalRate ≠ 0 := by
  refine ⟨rfl, ?_, ?_⟩ <;>
    simp [calculateBorrowingPower, lvrBasedRateOf, initialLVROf, determineInterestRate,
      LVR_SPECIFIC_RATES, List.find?, zeroSuppliedRateInput, baselineInput] <;> norm_num

/-- C9 (amended): the caller-supplied `interestRate` fixes the solve's rate
exactly when it is present and nonzero (JavaScript truthiness of `||`);
when it is absent — or present but zero — the rate is seeded from the Rate
Resolver at the initial LVR. -/
theorem calculateBorrowingPower_rate_seeding :
    ∀ (input : CalculationInput) (r : ℚ),
      (input.interestRate = some r → r ≠ 0 →
        (calculateBorrowingPower input).finalRate = r)
      ∧ (input.interestRate = none →
        (calculateBorrowingPower input).finalRate =
          determineInterestRate (initialLVROf input) input.baseRate
            input.isFirstHomeBuyer input.isInvestor)
      ∧ (input.interestRate = some 0 →
        (calculateBorrowingPower input).finalRate =
          determineInterestRate (initialLVROf input) input.baseRate
            input.isFirstHomeBuyer input.isInvestor) := by
  intro input r
  refine ⟨fun h hr => ?_, fun h => ?_, fun h => ?_⟩
  · simp [calculateBorrowingPower, lvrBasedRateOf, h, hr]
  · simp [calculateBorrowingPower, lvrBasedRateOf, h]
  · simp [calculateBorrowingPower, lvrBasedRateOf, h]

/-- Witness for C9 (amended): a supplied nonzero rate 6.1 is used as is. -/
theorem calculateBorrowingPower_rate_seeding_witness :
    (calculateBorrowingPower { baselineInput with interestRate := some 6.1 }).finalRate = 6.1 :=
  (calculateBorrowingPower_rate_seeding { baselineInput with interestRate := some 6.1 } 6.1).1
    rfl (by norm_num)

/-- C10: the two public serviceability verdicts.
`calculateLoanServiceability` reports serviceable exactly when the surplus
is non-negative (boundary inclusive); `calculateBorrowingPower` reports
serviceable exactly when the surplus is non-negative AND the potential loan
(property value minus the deposit available after costs) does not exceed
the computed maximum loan; and the latter can be false with a non-negative
surplus (exhibited at `degenerateRateInput`). -/
theorem serviceability_verdicts_differ :
    (∀ (input : CalculationInput) (loanAmount : ℚ),
      (calculateLoanServiceability input loanAmount).isServiceable = true ↔
        0 ≤ (calculateLoanServiceability input loanAmount).surplus)
    ∧ (∀ input : CalculationInput,
      (calculateBorrowingPower input).isServiceable = true ↔
        (0 ≤ (calculateBorrowingPower input).surplus ∧
          potentialLoanOf input ≤ (calculateBorrowingPower input).maxLoan))
    ∧ (0 ≤ (calculateBorrowingPower degenerateRateInput).surplus
        ∧ (calculateBorrowingPower degenerateRateInput).isServiceable = false) := by
  refine ⟨?_, ?_, ?_, ?_⟩
  · intro input loanAmount
    simp [calculateLoanServiceability, ge_iff_le]
  · intro input
    simp [calculateBorrowingPower, ge_iff_le]
  · simp [calculateBorrowingPower, surplusOf, monthlyRepaymentOf, calculatePmt,
      effectiveRateOf, lvrBasedRateOf, INTEREST_BUFFER, degenerateRateInput, baselineInput,
      monthlyDisposableOf, annualNetIncomeOf, calculateTotalIncome, totalTaxOf,
      borrowerShadedIncome, applyIncomeShading, shadingPercentage, normalizeToAnnual,
      annualMultiplier, calculateTax, totalMonthlyExpensesOf, normalizeToMonthly,
      monthlyMultiplier, DEPENDENT_COST, monthlyDebtOf, monthlyCreditCardOf]
    norm_num
  · simp [calculateBorrowingPower, surplusOf, monthlyRepaymentOf, calculatePmt,
      potentialLoanOf, finalDepositOf, finalStampDutyOf, finalOtherChargesOf,
      maxPropertyOf, maxLoanOf, calculatePV, refineMaxProperty, calculateStampDuty,
      calculateProgressiveDuty, findApplicableThreshold, calculateOtherCharges,
      STAMP_DUTY_RATES, nswStampDutyRates, List.lookup,
      effectiveRateOf, lvrBasedRateOf, INTEREST_BUFFER, degenerateRateInput, baselineInput,
      monthlyDisposableOf, annualNetIncomeOf, calculateTotalIncome, totalTaxOf,
      borrowerShadedIncome, applyIncomeShading, shadingPercentage, normalizeToAnnual,
      annualMultiplier, calculateTax, totalMonthlyExpensesOf, normalizeToMonthly,
      monthlyMultiplier, DEPENDENT_COST, monthlyDebtOf, monthlyCreditCardOf]
    norm_num

/-- C2: the solver entry points perform no input validation.  An
unrecognized frequency string makes the `multipliers` record lookup
`undefined` (`NaN` after multiplication); an input whose assessment rate
is exactly 0 drives `calculatePV` into its `0/0` case (`NaN`); in both
cases `calculateBorrowingPower` still assembles and returns a
`CalculationResult` instead of rejecting with an error. -/
theorem solver_accepts_degenerate_inputs :
    annualMultiplierOfString "yearly" = none
    ∧ effectiveRateOf zeroEffectiveRateInput = 0
    ∧ calculatePVOrNaN (monthlyDisposableOf zeroEffectiveRateInput)
        (effectiveRateOf zeroEffectiveRateInput)
        (zeroEffectiveRateInput.loanTerm * 12) = none
    ∧ (calculateBorrowingPower zeroEffectiveRateInput).iterations = 1 := by
  refine ⟨?_, ?_, ?_, ?_⟩
  · simp [annualMultiplierOfString, List.lookup]
  · simp [effectiveRateOf, lvrBasedRateOf, INTEREST_BUFFER, zeroEffectiveRateInput,
      baselineInput]
    norm_num
  · simp [calculatePVOrNaN, effectiveRateOf, lvrBasedRateOf, INTEREST_BUFFER,
      zeroEffectiveRateInput, baselineInput]
    norm_num
  · simp [calculateBorrowingPower]

/-- Every round of the bounded loop returns through the convergence /
iteration-cap branch, which caps the round counter at `MAX_ITERATIONS` and
finalizes `finalRate` with the rate the Rate Resolver assigns to the
returned result's LVR. -/
theorem bpIterLoop_spec (input : CalculationInput) :
    ∀ (remaining iterations : ℕ) (previousMaxLoan currentRate : ℚ)
      (rows : List IterationRow) (finalResult : Option CalculationResult),
      remaining + iterations = MAX_ITERATIONS → 0 < remaining →
      (bpIterLoop input remaining iterations previousMaxLoan currentRate rows
          finalResult).iterations ≤ MAX_ITERATIONS
      ∧ (bpIterLoop input remaining iterations previousMaxLoan currentRate rows
            finalResult).finalRate =
          determineInterestRate
            (bpIterLoop input remaining iterations previousMaxLoan currentRate rows
              finalResult).loanToValueRatio
            input.baseRate input.isFirstHomeBuyer input.isInvestor := by
  intro remaining
  induction remaining with
  | zero => intro _ _ _ _ _ _ h0; omega
  | succ n ih =>
    intro iterations previousMaxLoan currentRate rows finalResult hinv _
    simp only [bpIterLoop]
    split_ifs with hc
    · refine ⟨?_, rfl⟩
      simp only [MAX_ITERATIONS] at hinv ⊢
      omega
    · apply ih
      · simp only [MAX_ITERATIONS] at hinv ⊢
        omega
      · rcases hc with hc
        simp only [not_or] at hc
        simp only [MAX_ITERATIONS] at hinv hc ⊢
        omega

/-- C1: for every input, `calculateBorrowingPowerIterative` terminates
within `MAX_ITERATIONS = 10` rounds (the returned `iterations` counter
never exceeds 10) and the returned `finalRate` equals the rate the Rate
Resolver (`determineInterestRate`, with the input's `baseRate`,
`isFirstHomeBuyer` and `isInvestor`) resolves at the returned result's
`loanToValueRatio`. -/
theorem calculateBorrowingPowerIterative_consistent (input : CalculationInput) :
    (calculateBorrowingPowerIterative input).iterations ≤ MAX_ITERATIONS
    ∧ (calculateBorrowingPowerIterative input).finalRate =
        determineInterestRate
          (calculateBorrowingPowerIterative input).loanToValueRatio
          input.baseRate input.isFirstHomeBuyer input.isInvestor := by
  unfold calculateBorrowingPowerIterative
  exact bpIterLoop_spec input MAX_ITERATIONS 0 0 _ [] none rfl
    (by norm_num [MAX_ITERATIONS])

/-! ### Characterization of `findBestRate` -/

/-- The first element of minimal `rate` in a list (earliest on ties). -/
def firstMinByRate : List RateConfiguration → Option RateConfiguration
  | [] => none
  | x :: xs =>
    match firstMinByRate xs with
    | none => some x
    | some m => if m.rate < x.rate then some m else some x

theorem firstMinByRate_eq_none_iff (l : List RateConfiguration) :
    firstMinByRate l = none ↔ l = [] := by
  cases l with
  | nil => simp [firstMinByRate]
  | cons x xs =>
    simp only [firstMinByRate]
    cases h : firstMinByRate xs <;> simp
    split_ifs <;> simp

theorem firstMinByRate_mem : ∀ {l : List RateConfiguration} {m : RateConfiguration},
    firstMinByRate l = some m → m ∈ l := by
  intro l
  induction l with
  | nil => intro m h; simp [firstMinByRate] at h
  | cons x xs ih =>
    intro m h
    simp only [firstMinByRate] at h
    cases hx : firstMinByRate xs with
    | none =>
      simp only [hx] at h
      simp at h
      simp [h]
    | some m' =>
      simp only [hx] at h
      split_ifs at h with hlt
      · simp at h
        subst h
        exact List.mem_cons_of_mem x (ih hx)
      · simp at h
        subst h
        exact List.mem_cons_self x xs

theorem firstMinByRate_le : ∀ {l : List RateConfiguration} {m : RateConfiguration},
    firstMinByRate l = some m → ∀ x ∈ l, m.rate ≤ x.rate := by
  intro l
  induction l with
  | nil => intro m h; simp [firstMinByRate] at h
  | cons x xs ih =>
    intro m h
    simp only [firstMinByRate] at h
    cases hx : firstMinByRate xs with
    | none =>
      simp only [hx] at h
      simp at h
      have hnil := (firstMinByRate_eq_none_iff xs).mp hx
      subst hnil
      simp [h]
    | some m' =>
      simp only [hx] at h
      split_ifs at h with hlt
      · simp at h
        subst h
        intro y hy
        rcases List.mem_cons.mp hy with hy | hy
        · exact hy ▸ le_of_lt hlt
        · exact ih hx y hy
      · simp at h
        subst h
        intro y hy
        rcases List.mem_cons.mp hy with hy | hy
        · exact hy ▸ le_refl _
        · exact le_trans (not_lt.mp hlt) (ih hx y hy)

theorem firstMinByRate_first : ∀ {l : List RateConfiguration} {m : RateConfiguration},
    firstMinByRate l = some m →
    ∃ l1 l2, l = l1 ++ m :: l2 ∧ ∀ x ∈ l1, m.rate < x.rate := by
  intro l
  induction l with
  | nil => intro m h; simp [firstMinByRate] at h
  | cons x xs ih =>
    intro m h
    simp only [firstMinByRate] at h
    cases hx : firstMinByRate xs with
    | none =>
      simp only [hx] at h
      simp at h
      exact ⟨[], xs, by simp [h], by simp⟩
    | some m' =>
      simp only [hx] at h
      split_ifs at h with hlt
      · simp at h
        subst h
        obtain ⟨l1, l2, heq, hgt⟩ := ih hx
        refine ⟨x :: l1, l2, by simp [heq], ?_⟩
        intro y hy
        rcases List.mem_cons.mp hy with hy | hy
        · exact hy ▸ hlt
        · exact hgt y hy
      · simp at h
        subst h
        exact ⟨[], xs, by simp, by simp⟩

/-- The head of the stable ascending-by-rate sort is the earliest element of
minimal rate. -/
theorem insertionSort_head_eq_firstMinByRate (l : List RateConfiguration) :
    (l.insertionSort rateLe).head? = firstMinByRate l := by
  induction l with
  | nil => simp [firstMinByRate]
  | cons x xs ih =>
    simp only [List.insertionSort, firstMinByRate]
    cases hs : xs.insertionSort rateLe with
    | nil =>
      have hnone : firstMinByRate xs = none := by rw [← ih, hs]; rfl
      rw [hnone]
      simp [List.orderedInsert]
    | cons b t =>
      have hsome : firstMinByRate xs = some b := by rw [← ih, hs]; rfl
      rw [hsome]
      dsimp only
      simp only [List.orderedInsert]
      by_cases hle : rateLe x b
      · rw [if_pos hle, if_neg (not_lt.mpr hle)]
        rfl
      · rw [if_neg hle, if_pos (lt_of_not_le hle)]
        rfl

theorem matchesCriteria_eq_true_iff (lvrRange : LvrRange) (productType : LoanProductType)
    (repaymentType : RepaymentType) (borrowerType : BorrowerType) (loanAmount : ℚ)
    (isFirstHomeBuyer hasOffset hasRedraw : Bool) (cfg : RateConfiguration) :
    matchesCriteria lvrRange productType repaymentType borrowerType loanAmount
      isFirstHomeBuyer hasOffset hasRedraw cfg = true ↔
    (cfg.lvrRange = lvrRange ∧ cfg.productType = productType
      ∧ cfg.repaymentType = repaymentType ∧ cfg.borrowerType = borrowerType
      ∧ cfg.minLoanAmount ≤ loanAmount
      ∧ (∀ m, cfg.maxLoanAmount = some m → loanAmount ≤ m)
      ∧ (isFirstHomeBuyer = true → cfg.isFirstHomeBuyerEligible = true)
      ∧ (hasOffset = true → cfg.hasOffset = true)
      ∧ (hasRedraw = true → cfg.hasRedraw = true)) := by
  unfold matchesCriteria
  cases hm : cfg.maxLoanAmount <;>
    cases isFirstHomeBuyer <;> cases hasOffset <;> cases hasRedraw <;>
      simp [Bool.and_eq_true, beq_iff_eq, decide_eq_true_iff, ge_iff_le, hm, and_assoc]

/-- C5: `findBestRate` returns `null` exactly when no configuration in the
table matches the query; and when it returns a configuration, that
configuration is in the table, matches the LVR bucket, product type,
repayment type and borrower type, has the loan amount within
`[minLoanAmount, maxLoanAmount or +∞]`, satisfies each requested flag as a
hard requirement, has the lowest rate among all matching configurations,
and — among the matching configurations in table order — is the first one
achieving that rate (exact-rate ties break by first-encountered order). -/
theorem findBestRate_spec (rateDatabase : List RateConfiguration) (lvrPercentage : ℚ)
    (productType : LoanProductType) (repaymentType : RepaymentType)
    (borrowerType : BorrowerType) (loanAmount : ℚ)
    (isFirstHomeBuyer hasOffset hasRedraw : Bool) :
    (findBestRate rateDatabase lvrPercentage productType repaymentType borrowerType
        loanAmount isFirstHomeBuyer hasOffset hasRedraw = none ↔
      ∀ cfg ∈ rateDatabase,
        ¬ matchesCriteria (getLvrRangeFromValue lvrPercentage) productType repaymentType
            borrowerType loanAmount isFirstHomeBuyer hasOffset hasRedraw cfg = true)
    ∧ ∀ cfg,
        findBestRate rateDatabase lvrPercentage productType repaymentType borrowerType
          loanAmount isFirstHomeBuyer hasOffset hasRedraw = some cfg →
        cfg ∈ rateDatabase
        ∧ cfg.lvrRange = getLvrRangeFromValue lvrPercentage
        ∧ cfg.productType = productType
        ∧ cfg.repaymentType = repaymentType
        ∧ cfg.borrowerType = borrowerType
        ∧ cfg.minLoanAmount ≤ loanAmount
        ∧ (∀ m, cfg.maxLoanAmount = some m → loanAmount ≤ m)
        ∧ (isFirstHomeBuyer = true → cfg.isFirstHomeBuyerEligible = true)
        ∧ (hasOffset = true → cfg.hasOffset = true)
        ∧ (hasRedraw = true → cfg.hasRedraw = true)
        ∧ (∀ other ∈ rateDatabase,
            matchesCriteria (getLvrRangeFromValue lvrPercentage) productType repaymentType
              borrowerType loanAmount isFirstHomeBuyer hasOffset hasRedraw other = true →
            cfg.rate ≤ other.rate)
        ∧ ∃ l1 l2,
            eligibleRatesFor rateDatabase lvrPercentage productType repaymentType
              borrowerType loanAmount isFirstHomeBuyer hasOffset hasRedraw = l1 ++ cfg :: l2
            ∧ ∀ x ∈ l1, cfg.rate < x.rate := by
  have hhead : findBestRate rateDatabase lvrPercentage productType repaymentType borrowerType
      loanAmount isFirstHomeBuyer hasOffset hasRedraw =
      firstMinByRate (eligibleRatesFor rateDatabase lvrPercentage productType repaymentType
        borrowerType loanAmount isFirstHomeBuyer hasOffset hasRedraw) := by
    unfold findBestRate
    exact insertionSort_head_eq_firstMinByRate _
  constructor
  · rw [hhead, firstMinByRate_eq_none_iff]
    unfold eligibleRatesFor
    rw [List.filter_eq_nil_iff]
  · intro cfg hcfg
    rw [hhead] at hcfg
    have hmemel : cfg ∈ eligibleRatesFor rateDatabase lvrPercentage productType repaymentType
        borrowerType loanAmount isFirstHomeBuyer hasOffset hasRedraw :=
      firstMinByRate_mem hcfg
    have hmem := List.mem_filter.mp hmemel
    have hmatch := (matchesCriteria_eq_true_iff _ _ _ _ _ _ _ _ _).mp hmem.2
    obtain ⟨h1, h2, h3, h4, h5, h6, h7, h8, h9⟩ := hmatch
    refine ⟨hmem.1, h1, h2, h3, h4, h5, h6, h7, h8, h9, ?_, ?_⟩
    · intro other hother hmother
      exact firstMinByRate_le hcfg other
        (List.mem_filter.mpr ⟨hother, hmother⟩)
    · exact firstMinByRate_first hcfg

/-- A two-product demonstration table: identical criteria, different rates. -/
def demoCfgA : RateConfiguration :=
  { id := "A", productName := "Basic Variable", lender := "L1",
    productType := .variableRate, repaymentType := .principal_and_interest,
    borrowerType := .owner_occupier, lvrRange := .r70_80, hasOffset := false,
    hasRedraw := true, rate := 5.74, comparisonRate := 5.65, maxLvr := 80,
    minLoanAmount := 50000, maxLoanAmount := none,
    isFirstHomeBuyerEligible := true, effectiveDate := "2024-01-01" }

def demoCfgB : RateConfiguration :=
  { demoCfgA with id := "B", productName := "Premium Variable", rate := 5.99 }

def demoRateTable : List RateConfiguration := [demoCfgB, demoCfgA]

/-- Witness for C5: on the demonstration table, the query at LVR 75 returns
the lower-rate configuration, which is a member of the table and matches the
bucket. -/
theorem findBestRate_spec_witness :
    demoCfgA ∈ demoRateTable ∧ demoCfgA.lvrRange = getLvrRangeFromValue 75 := by
  have h := (findBestRate_spec demoRateTable 75 .variableRate .principal_and_interest
      .owner_occupier 400000 false false false).2 demoCfgA (by
    simp [findBestRate, eligibleRatesFor, matchesCriteria, demoRateTable, demoCfgA, demoCfgB,
      getLvrRangeFromValue, List.insertionSort, List.orderedInsert, rateLe, List.filter]
    norm_num)
  exact ⟨h.1, h.2.1⟩
